import Mathlib

/-!
Shallow embedding of `raft.go` (package `raft`, the P3 consensus sketch of
the tzkv repository) and verification of the specification's claims about
it.

Modelling conventions:
* Go `int` is modelled as `Int`; Go slices as `List`.
* The caller-allocated reply structs start at their Go zero value; a handler
  that writes no field leaves that zero value.
* The out-of-bounds slice access `rf.logs[len(rf.logs)-1]` — a runtime panic
  when the log is empty — is modelled by returning `none`.
* A value sent on one of the internal channels (`heartBeatCh`, `winElecCh`)
  is returned explicitly by the sending function; a value received from a
  channel or timer inside `run`'s `select` is an explicit input (`RunEvent`).
* The mutex and the RPC transport are elided: every handler already runs
  atomically on the single replica state it touches.
-/

/-- `LogEntry` from raft.go: `{index int; term int; value string}`. -/
structure LogEntry where
  index : Int
  term : Int
  value : String
deriving DecidableEq

/-- The role constants `FOLLOWER`, `CANDIDATE`, `LEADER` from raft.go. -/
inductive RaftState where
  | follower
  | candidate
  | leader
deriving DecidableEq

/-- The `Raft` struct from raft.go.  The peers slice is kept as its length
`numPeers`; the mutex, the apply channel and the three internal channels are
elided (channel traffic is modelled as explicit inputs and outputs of the
functions that use them). -/
structure Raft where
  numPeers : Nat
  me : Int
  currentTerm : Int
  votedFor : Int
  logs : List LogEntry
  committedIndex : Int
  lastApplied : Int
  nextIndex : List Int
  matchIndex : List Int
  state : RaftState
  voteCount : Int
deriving DecidableEq

/-- `RequestVoteArgs` from raft.go. -/
structure RequestVoteArgs where
  term : Int
  candidateId : Int
  lastLogIndex : Int
  lastLogTerm : Int
deriving DecidableEq

/-- `AppendEntriesArgs` from raft.go. -/
structure AppendEntriesArgs where
  term : Int
  leaderId : Int
  prevLogIndex : Int
  prevLogTerm : Int
  entries : List LogEntry
  leaderCommit : Int
deriving DecidableEq

/-- `RequestVoteReply` from raft.go. -/
structure RequestVoteReply where
  term : Int
  vote : Bool
deriving DecidableEq

/-- `AppendEntriesReply` from raft.go. -/
structure AppendEntriesReply where
  term : Int
  success : Bool
deriving DecidableEq

/-- The `RequestVote` handler (raft.go lines 148-163).  First branch:
`rf.currentTerm > args.term` rejects with the replica's own term.  Second
branch reads `rf.logs[len(rf.logs)-1].index`, which panics when the log is
empty — modelled as `none`; a larger own last index rejects.  Otherwise the
vote is granted.  No field of `rf` is ever written, so the (unchanged)
state is returned together with the reply. -/
def RequestVote (rf : Raft) (args : RequestVoteArgs) :
    Option (Raft × RequestVoteReply) :=
  if rf.currentTerm > args.term then
    some (rf, { term := rf.currentTerm, vote := false })
  else
    match rf.logs.getLast? with
    | none => none
    | some last =>
      if last.index > args.lastLogIndex then
        some (rf, { term := rf.currentTerm, vote := false })
      else
        some (rf, { term := rf.currentTerm, vote := true })

/-- The `AppendEntries` handler (raft.go lines 168-173).  Its whole body is
`rf.heartBeatCh <- true`: the reply keeps its Go zero value
`{term = 0, success = false}`, no replica field is written, and `true` is
sent on `heartBeatCh` whatever the arguments are.  Returned: the (unchanged)
state, the reply, and the value sent on `heartBeatCh`. -/
def AppendEntries (rf : Raft) (_args : AppendEntriesArgs) :
    Raft × AppendEntriesReply × Bool :=
  (rf, { term := 0, success := false }, true)

/-- `sendRequestVote` (raft.go lines 204-209) forwards `reply.vote` —
whatever its value, granted or denied — onto `winElecCh` after the RPC
returns.  This function gives the value that is sent. -/
def sendRequestVoteSignal (reply : RequestVoteReply) : Bool :=
  reply.vote

/-- `broadcastRequestVote` (raft.go lines 219-234).  The Go code sets
`arg.term` and `arg.candidateId`, then assigns `arg.lastLogIndex` twice in a
row — first the last entry's `index`, then the last entry's `term` — so the
final argument struct carries the last entry's TERM in `lastLogIndex` and
the zero value `0` in the never-assigned `lastLogTerm`.  The loop
`for index := range rf.peers` starts one send per peer index, including
`rf.me` itself.  Reading `rf.logs[len(rf.logs)-1]` panics on an empty log
(`none`).  Returned: the argument struct and the list of target indices. -/
def broadcastRequestVote (rf : Raft) : Option (RequestVoteArgs × List Nat) :=
  match rf.logs.getLast? with
  | none => none
  | some last =>
    some ({ term := rf.currentTerm, candidateId := rf.me,
            lastLogIndex := last.term, lastLogTerm := 0 },
          List.range rf.numPeers)

/-- `Start` (raft.go lines 267-276): apart from the three initialisers
`index := -1; term := -1; isLeader := true` the body is empty, so the call
always returns `(-1, -1, true)` and never touches the log or any other
field. -/
def Start (rf : Raft) (_command : String) : Raft × Int × Int × Bool :=
  (rf, -1, -1, true)

/-- `GetState` (raft.go lines 92-101). -/
def GetState (rf : Raft) : Int × Bool :=
  (rf.currentTerm, rf.state = RaftState.leader)

/-- `Make` (raft.go lines 297-307): `&Raft{}` gives every field its Go zero
value (ints `0`, slices empty), then only `me` and `state = FOLLOWER` are
set before `run` is started.  In particular the log is never seeded with a
sentinel entry. -/
def Make (numPeers : Nat) (me : Int) : Raft :=
  { numPeers := numPeers
    me := me
    currentTerm := 0
    votedFor := 0
    logs := []
    committedIndex := 0
    lastApplied := 0
    nextIndex := []
    matchIndex := []
    state := RaftState.follower
    voteCount := 0 }

/-- The events `run`'s `select` statements can observe: a heartbeat signal
received from `heartBeatCh`, a value received from `winElecCh` (the `vote`
field of some reply, forwarded by `sendRequestVote`), or the election timer
firing. -/
inductive RunEvent where
  | heartBeat
  | voteReply (vote : Bool)
  | timeout
deriving DecidableEq

/-- One pass of `run` (raft.go lines 309-343), the state transition it
performs given the event its `select` observes.  LEADER case: it only starts
`broadcastAppendEntries`, which writes no local field.  CANDIDATE case:
`rf.currentTerm += 1`, then `broadcastRequestVote` is started and the
`select` runs — a heartbeat sets FOLLOWER; ANY value received on
`winElecCh` (the Go `case <- rf.winElecCh` discards the received boolean)
sets LEADER with `voteCount = 0` and `votedFor = -1`; a timer expiry only
re-broadcasts, changing no field.  Note `votedFor` is never set to `rf.me`
and the term increment happens without a self-vote.  FOLLOWER case: the
`select` has a single timer branch that sets `state = CANDIDATE` and
nothing else; no other event is receivable there, so any other event leaves
the state unchanged. -/
def run (rf : Raft) (ev : RunEvent) : Raft :=
  match rf.state with
  | RaftState.leader => rf
  | RaftState.candidate =>
    let rf1 : Raft := { rf with currentTerm := rf.currentTerm + 1 }
    match ev with
    | RunEvent.heartBeat => { rf1 with state := RaftState.follower }
    | RunEvent.voteReply _ =>
        { rf1 with state := RaftState.leader, voteCount := 0, votedFor := -1 }
    | RunEvent.timeout => rf1
  | RaftState.follower =>
    match ev with
    | RunEvent.timeout => { rf with state := RaftState.candidate }
    | _ => rf

/-- The relation claimed of the volatile pair `(committedIndex, lastApplied)`
across one operation: the invariant `lastApplied ≤ committedIndex` is
preserved and neither component decreases. -/
def volatileOK (rf rf2 : Raft) : Prop :=
  (rf.lastApplied ≤ rf.committedIndex → rf2.lastApplied ≤ rf2.committedIndex) ∧
  rf.committedIndex ≤ rf2.committedIndex ∧
  rf.lastApplied ≤ rf2.lastApplied

/-- Two states with the same volatile pair satisfy `volatileOK`. -/
theorem volatileOK_of_eq (rf rf2 : Raft)
    (h1 : rf2.committedIndex = rf.committedIndex)
    (h2 : rf2.lastApplied = rf.lastApplied) : volatileOK rf rf2 := by
  unfold volatileOK
  rw [h1, h2]
  exact ⟨fun h => h, le_refl _, le_refl _⟩

/-- Any state the `RequestVote` handler returns is the input state itself. -/
theorem requestVote_state_eq (rf : Raft) (args : RequestVoteArgs)
    (p : Raft × RequestVoteReply) (hp : RequestVote rf args = some p) :
    p.1 = rf := by
  by_cases h1 : rf.currentTerm > args.term
  · simp only [RequestVote, if_pos h1] at hp
    cases hp; rfl
  · cases hgl : rf.logs.getLast? with
    | none => simp [RequestVote, if_neg h1, hgl] at hp
    | some last =>
      by_cases h2 : last.index > args.lastLogIndex
      · simp only [RequestVote, if_neg h1, hgl, if_pos h2] at hp
        cases hp; rfl
      · simp only [RequestVote, if_neg h1, hgl, if_neg h2] at hp
        cases hp; rfl

/-- `run` never writes `committedIndex` or `lastApplied`. -/
theorem run_volatile_eq (rf : Raft) (ev : RunEvent) :
    (run rf ev).committedIndex = rf.committedIndex ∧
    (run rf ev).lastApplied = rf.lastApplied := by
  unfold run
  cases h : rf.state <;> cases ev <;> exact ⟨rfl, rfl⟩

/-- Concrete replica for the C1 divergence: it has already voted for
candidate `2` in term `1`, and its last log entry is `(index 1, term 5)`. -/
def rfC1 : Raft :=
  { Make 3 0 with
      currentTerm := 1
      votedFor := 2
      logs := [{ index := 1, term := 5, value := "a" }] }

/-- Concrete request for C1: candidate `5`, same term `1`, whose log pair
`(lastLogTerm, lastLogIndex) = (0, 2)` is lexicographically below the
voter's last pair `(5, 1)`. -/
def argsC1 : RequestVoteArgs :=
  { term := 1, candidateId := 5, lastLogIndex := 2, lastLogTerm := 0 }

/-- Concrete candidate for C2, in a 5-replica cluster (3 votes would be a
majority). -/
def rfC2 : Raft :=
  { Make 5 0 with
      currentTerm := 3
      logs := [{ index := 1, term := 1, value := "a" }]
      state := RaftState.candidate }

/-- Concrete replica for C3: a candidate at term 1 that has voted. -/
def rfC3 : Raft :=
  { Make 3 0 with
      currentTerm := 1
      votedFor := 0
      logs := [{ index := 1, term := 1, value := "a" }]
      state := RaftState.candidate }

/-- Concrete RequestVote arguments for C3 carrying the higher term 5. -/
def argsC3 : RequestVoteArgs :=
  { term := 5, candidateId := 2, lastLogIndex := 3, lastLogTerm := 2 }

/-- Concrete AppendEntries arguments for C3 carrying the higher term 5. -/
def aargsC3 : AppendEntriesArgs :=
  { term := 5, leaderId := 2, prevLogIndex := 1, prevLogTerm := 1,
    entries := [], leaderCommit := 0 }

/-- Concrete replica for C4: a candidate at term 5. -/
def rfC4 : Raft :=
  { Make 3 0 with
      currentTerm := 5
      logs := [{ index := 1, term := 1, value := "a" }]
      state := RaftState.candidate }

/-- Concrete stale AppendEntries arguments for C4: term 3 < 5. -/
def aargsC4 : AppendEntriesArgs :=
  { term := 3, leaderId := 2, prevLogIndex := 1, prevLogTerm := 1,
    entries := [], leaderCommit := 0 }

/-- Concrete follower for C5. -/
def rfC5f : Raft :=
  { Make 3 0 with
      currentTerm := 2
      logs := [{ index := 1, term := 1, value := "a" }] }

/-- Concrete leader for C5 whose last log index is 1. -/
def rfC5l : Raft :=
  { Make 3 0 with
      currentTerm := 2
      logs := [{ index := 1, term := 1, value := "a" }]
      state := RaftState.leader }

/-- Concrete follower for C6 holding the entry `(index 1, term 1)`. -/
def rfC6 : Raft :=
  { Make 3 0 with
      currentTerm := 1
      logs := [{ index := 1, term := 1, value := "a" }] }

/-- Concrete AppendEntries arguments for C6 that pass every check of the
claim: same term, `prevLogIndex = 1` and `prevLogTerm = 1` match the
follower's entry, one new entry to append, `leaderCommit = 1`. -/
def aargsC6 : AppendEntriesArgs :=
  { term := 1, leaderId := 2, prevLogIndex := 1, prevLogTerm := 1,
    entries := [{ index := 2, term := 1, value := "b" }], leaderCommit := 1 }

/-- Concrete follower for C7: replica 1 of 3, term 7, no vote cast
(`votedFor = -1`), last log entry `(index 4, term 9)`. -/
def rfC7 : Raft :=
  { Make 3 1 with
      currentTerm := 7
      votedFor := -1
      logs := [{ index := 4, term := 9, value := "c" }] }

/-- Claim C1.  The handler grants the vote to candidate 5 although the
replica's `votedFor` is 2 — neither none nor the requester — and although
the candidate's pair `(lastLogTerm, lastLogIndex) = (0, 2)` is
lexicographically BELOW the voter's last pair `(term, index) = (5, 1)`:
the code compares only the two indices and never consults `votedFor` or
either term, so it grants a vote the claimed rule forbids. -/
theorem requestVote_grant_ignores_votedFor_and_term :
    RequestVote rfC1 argsC1 = some (rfC1, { term := 1, vote := true }) ∧
    rfC1.votedFor = 2 ∧
    argsC1.candidateId = 5 ∧
    rfC1.currentTerm ≤ argsC1.term ∧
    rfC1.logs.getLast? = some { index := 1, term := 5, value := "a" } ∧
    argsC1.lastLogTerm < 5 := by
  decide

/-- Claim C2.  In a 5-replica cluster (a strict majority needs 3 granted
votes) a single RequestVote reply whose vote is DENIED is forwarded onto
`winElecCh` as `false`, and the candidate's `select` — which discards the
received value — transitions it straight to Leader: one denied reply is
sufficient. -/
theorem single_denied_reply_elects_leader :
    sendRequestVoteSignal { term := 3, vote := false } = false ∧
    rfC2.state = RaftState.candidate ∧
    rfC2.numPeers = 5 ∧
    (run rfC2 (RunEvent.voteReply false)).state = RaftState.leader := by
  decide

/-- Claim C3.  An inbound RPC carrying term 5, strictly greater than the
replica's `currentTerm = 1`, leaves the replica completely unchanged in
both handlers: `currentTerm` stays 1, `votedFor` stays 0, and the role
stays Candidate — no step-down, no term adoption, no vote reset. -/
theorem higher_term_rpc_no_step_down :
    argsC3.term = 5 ∧ aargsC3.term = 5 ∧ rfC3.currentTerm = 1 ∧
    RequestVote rfC3 argsC3 = some (rfC3, { term := 1, vote := true }) ∧
    (AppendEntries rfC3 aargsC3).1 = rfC3 ∧
    rfC3.state = RaftState.candidate ∧ rfC3.votedFor = 0 := by
  decide

/-- Claim C4.  A stale AppendEntries (term 3 < `currentTerm` 5) is not
rejected with the replica's own term: the reply keeps its zero value
`term = 0` (not 5), `success = false`, and the handler still sends `true`
on `heartBeatCh` — a signal that, when `run`'s candidate `select` receives
it, flips the role to Follower.  The replica's state is thus not left
unchanged by a stale request. -/
theorem stale_append_entries_not_rejected :
    rfC4.currentTerm = 5 ∧ aargsC4.term = 3 ∧
    (AppendEntries rfC4 aargsC4).2.1 = { term := 0, success := false } ∧
    (AppendEntries rfC4 aargsC4).2.2 = true ∧
    rfC4.state = RaftState.candidate ∧
    (run rfC4 RunEvent.heartBeat).state = RaftState.follower := by
  decide

/-- Claim C5.  `Start` on a Follower returns `isLeader = true` instead of a
rejection, and `Start` on a Leader whose last log index is 1 appends
nothing and returns `(-1, -1)` instead of `(2, currentTerm)`: the function
returns its initialiser constants unconditionally. -/
theorem start_constant_result :
    rfC5f.state = RaftState.follower ∧
    Start rfC5f "x" = (rfC5f, -1, -1, true) ∧
    rfC5l.state = RaftState.leader ∧
    Start rfC5l "y" = (rfC5l, -1, -1, true) ∧
    (Start rfC5l "y").1.logs = rfC5l.logs := by
  decide

/-- Claim C6.  An AppendEntries that passes every check the claim lists —
same term, and the follower's log holds the entry `(index 1, term 1)`
matching `prevLogIndex`/`prevLogTerm`, with one new entry carried — still
gets `success = false` in the (zero-valued) reply, appends nothing, and
leaves `committedIndex` at 0 instead of advancing it to
`min(leaderCommit, last new index) = 1`. -/
theorem append_entries_rejects_matching_log :
    rfC6.logs.getLast? = some { index := 1, term := 1, value := "a" } ∧
    aargsC6.prevLogIndex = 1 ∧ aargsC6.prevLogTerm = 1 ∧
    aargsC6.term = rfC6.currentTerm ∧ aargsC6.leaderCommit = 1 ∧
    (AppendEntries rfC6 aargsC6).2.1.success = false ∧
    (AppendEntries rfC6 aargsC6).1.logs = rfC6.logs ∧
    (AppendEntries rfC6 aargsC6).1.committedIndex = 0 := by
  decide

/-- Claim C7.  The follower's election timer firing only flips the role to
Candidate: `currentTerm` stays 7 (no increment) and `votedFor` stays -1 (no
self-vote, `me = 1`).  The vote broadcast then built carries the last
entry's TERM 9 in the `lastLogIndex` field (the double assignment in the
source), the never-assigned zero in `lastLogTerm` instead of 9, and targets
every peer index `[0, 1, 2]` — including the replica itself. -/
theorem timeout_no_term_increment_and_bad_broadcast :
    rfC7.state = RaftState.follower ∧
    (run rfC7 RunEvent.timeout).state = RaftState.candidate ∧
    (run rfC7 RunEvent.timeout).currentTerm = 7 ∧
    (run rfC7 RunEvent.timeout).votedFor = -1 ∧ rfC7.me = 1 ∧
    rfC7.logs.getLast? = some { index := 4, term := 9, value := "c" } ∧
    broadcastRequestVote rfC7 =
      some ({ term := 7, candidateId := 1, lastLogIndex := 9,
              lastLogTerm := 0 }, [0, 1, 2]) := by
  decide

/-- Claim C8.  Across every modelled operation — the two RPC handlers, the
submit call `Start`, and any pass of `run` — the volatile pair
`(committedIndex, lastApplied)` satisfies `volatileOK`: the invariant
`lastApplied ≤ committedIndex` is preserved and neither component ever
decreases (the sketch in fact never writes either field). -/
theorem volatile_state_monotone (rf : Raft) (rvargs : RequestVoteArgs)
    (aeargs : AppendEntriesArgs) (cmd : String) (ev : RunEvent) :
    (∀ p : Raft × RequestVoteReply,
      RequestVote rf rvargs = some p → volatileOK rf p.1) ∧
    volatileOK rf (AppendEntries rf aeargs).1 ∧
    volatileOK rf (Start rf cmd).1 ∧
    volatileOK rf (run rf ev) := by
  refine ⟨?_, ?_, ?_, ?_⟩
  · intro p hp
    rw [requestVote_state_eq rf rvargs p hp]
    exact volatileOK_of_eq rf rf rfl rfl
  · exact volatileOK_of_eq rf rf rfl rfl
  · exact volatileOK_of_eq rf rf rfl rfl
  · exact volatileOK_of_eq rf (run rf ev) (run_volatile_eq rf ev).1
      (run_volatile_eq rf ev).2

/-- Witness for claim C8 at a concrete state and operation. -/
theorem volatile_state_monotone_case :
    volatileOK (Make 3 0) (run (Make 3 0) RunEvent.timeout) :=
  (volatile_state_monotone (Make 3 0) ⟨0, 0, 0, 0⟩ ⟨0, 0, 0, 0, [], 0⟩ ""
    RunEvent.timeout).2.2.2

/-- Claim C9.  Applying the AppendEntries handler twice with the identical
request leaves the log exactly equal to the log after applying it once: the
handler performs no log mutation at all, so redelivery mutates nothing. -/
theorem append_entries_idempotent_on_log (rf : Raft)
    (args : AppendEntriesArgs) :
    (AppendEntries (AppendEntries rf args).1 args).1.logs =
      (AppendEntries rf args).1.logs :=
  rfl

/-- Claim C10.  Every replica `Make` creates has an empty log, and on that
state any RequestVote whose term is not below `currentTerm` (so the first
branch does not return early) reaches the `logs[len(logs)-1]` lookup, which
has no value — the handler is not total there; `broadcastRequestVote` hits
the same lookup unconditionally. -/
theorem make_empty_log_not_total (n : Nat) (me : Int)
    (args : RequestVoteArgs) (h : (Make n me).currentTerm ≤ args.term) :
    (Make n me).logs = [] ∧
    RequestVote (Make n me) args = none ∧
    broadcastRequestVote (Make n me) = none := by
  refine ⟨rfl, ?_, rfl⟩
  unfold RequestVote
  rw [if_neg (not_lt.mpr h)]
  rfl

/-- Witness for claim C10 at a concrete cluster size and request. -/
theorem make_empty_log_not_total_case :
    (Make 3 0).logs = [] ∧
    RequestVote (Make 3 0) ⟨0, 1, 0, 0⟩ = none ∧
    broadcastRequestVote (Make 3 0) = none :=
  make_empty_log_not_total 3 0 ⟨0, 1, 0, 0⟩ (by decide)
